import Mathlib

/-!
Shallow embedding of the qtorient orientation/mode decision engine
(`qtorient/qtorient.py` and `qtorient/settings.py`).

Sensor values, scale factors and the gravity threshold are Python floats in
the source; they are modelled as exact rationals (`ℚ`).  File system access
and subprocess calls are modelled by explicit inputs (the content of the
file read, the outcome of an `open` call) and by an emitted list of
`Effect`s recording which external side-effecting operations were invoked.
-/

namespace Qtorient

/-- The four screen orientations, the keys of the `ORIENTATIONS` dict
(`'normal' | 'inverted' | 'left' | 'right'`). -/
inductive Orientation
  | normal
  | inverted
  | left
  | right
deriving DecidableEq

/-- Laptop vs tablet mode, the two values the resolved mode can take. -/
inductive Mode
  | laptop
  | tablet
deriving DecidableEq

/-- `GRAVITY_THRESHOLD = 2.0` — sensitivity to rotation. -/
def GRAVITY_THRESHOLD : ℚ := 2

/-- `KEYBOARD_CMD = []` — command to launch the on-screen keyboard; empty in
the source, so no keyboard is ever launched. -/
def KEYBOARD_CMD : List String := []

/-- `ORIENTATIONS[o]['pen']`. -/
def pen_mode : Orientation → String
  | .normal => "none"
  | .inverted => "half"
  | .left => "ccw"
  | .right => "cw"

/-- `ORIENTATIONS[o]['transform_matrix']` (row-major 3×3). -/
def transform_matrix : Orientation → List ℤ
  | .normal => [1, 0, 0, 0, 1, 0, 0, 0, 1]
  | .inverted => [-1, 0, 1, 0, -1, 1, 0, 0, 1]
  | .left => [0, -1, 1, 1, 0, 0, 0, 0, 1]
  | .right => [0, 1, 0, -1, 0, 1, 0, 0, 1]

/-- The mutable fields of `CoreApp` that the decision engine reads and
writes: `_laptop` (tri-state: `None`/`True`/`False`), `orientation`,
`_accel` (x, y), `_incl` (x, y, z), `_read_fails`, `keyboard_pid`. -/
structure State where
  laptop : Option Bool
  orientation : Orientation
  accel : ℚ × ℚ
  incl : ℚ × ℚ × ℚ
  read_fails : ℕ
  keyboard_pid : Option ℕ
deriving DecidableEq

/-- Initial `CoreApp` state set up in `__init__`: `_laptop = None`,
`orientation = 'normal'`, `_accel = [0, 0]`, `_incl = [0, 0, 0]`,
`_read_fails = 0`, `keyboard_pid = None`. -/
def init_state : State :=
  { laptop := none
    orientation := .normal
    accel := (0, 0)
    incl := (0, 0, 0)
    read_fails := 0
    keyboard_pid := none }

/-- Python truthiness of an `Optional[bool]` value: `None` is falsy. -/
def truthy : Option Bool → Bool
  | none => false
  | some b => b

/-- `CoreApp.is_lid_open`.  The body of the method only *defines* a nested
function (which would read `LID_SENSOR_PATH`) and never calls it, so the
method returns `None` for every content or readability of the lid file
(`none` models an unreadable file, `some s` a file with content `s`). -/
def is_lid_open (lidFile : Option String) : Option Bool :=
  match lidFile with
  | _ => none

/-- The dead nested function inside `CoreApp.is_lid_open`: it would return
whether the string `'open'` occurs in the lid file's content.  It is never
invoked by the source. -/
def is_lid_open_inner (s : String) : Bool :=
  2 ≤ (s.splitOn "open").length

/-- The inclination envelope tested by `is_laptop`:
`(-15 < x < 1) and (-5 < y < 4)`. -/
def in_envelope (x y : ℚ) : Bool :=
  (-15 < x && x < 1) && (-5 < y && y < 4)

/-- `CoreApp.is_laptop`: if `_laptop` is `True`/`False` return it; otherwise
read `x, y` from `_incl` and return `True` when
`not self.is_lid_open() or ((-15 < x < 1) and (-5 < y < 4))`, else
`False`. -/
def is_laptop (st : State) (lidFile : Option String) : Bool :=
  match st.laptop with
  | some true => true
  | some false => false
  | none =>
    let x := st.incl.1
    let y := st.incl.2.1
    if !truthy (is_lid_open lidFile) || in_envelope x y then true
    else false

/-- The system's current mode as a `Mode` value: `Laptop` when `is_laptop`
resolves true (including the `Laptop`-assumed-unknown record `_laptop =
None`), `Tablet` otherwise. -/
def mode (st : State) (lidFile : Option String) : Mode :=
  if is_laptop st lidFile then .laptop else .tablet

/-- `CoreApp.get_orientation`: pick the axis of `_accel` with the highest
offset (`abs(x) > abs(y)`) and compare it against `GRAVITY_THRESHOLD`;
when no threshold is exceeded, stay at `self.orientation`. -/
def get_orientation (st : State) : Orientation :=
  let x := st.accel.1
  let y := st.accel.2
  if |x| > |y| then
    if x ≤ -GRAVITY_THRESHOLD then .right
    else if x ≥ GRAVITY_THRESHOLD then .left
    else st.orientation
  else
    if y ≤ -GRAVITY_THRESHOLD then .normal
    else if y ≥ GRAVITY_THRESHOLD then .inverted
    else st.orientation

/-- One invocation of an external side-effecting operation:
`setMode b` is a call to `CoreApp.set_mode(is_laptop=b)` (the xinput
enable/disable loop over keyboards and pointers), `setOrientation o` a call
to `CoreApp.set_orientation(o)` (xrandr rotate plus the touchscreen
transform-matrix loop), `kill pid` the `kill` command issued by
`kill_keyboard`, and `launch` a `Popen` of the on-screen keyboard. -/
inductive Effect
  | setMode (is_laptop : Bool)
  | setOrientation (o : Orientation)
  | kill (pid : ℕ)
  | launch
deriving DecidableEq

/-- `CoreApp.kill_keyboard`: `if self.keyboard_pid:` (Python truthiness, so
a pid of `0` would be skipped) kill it and set `keyboard_pid = None`. -/
def kill_keyboard (st : State) : State × List Effect :=
  match st.keyboard_pid with
  | some pid =>
    if pid ≠ 0 then ({ st with keyboard_pid := none }, [.kill pid])
    else (st, [])
  | none => (st, [])

/-- `CoreApp.launch_keyboard`: returns immediately when `KEYBOARD_CMD` is
empty (it is, in the source); otherwise `Popen`s the keyboard when no pid is
recorded.  `newPid` models the pid the operating system would hand back. -/
def launch_keyboard (st : State) (newPid : ℕ) : State × List Effect :=
  if KEYBOARD_CMD.isEmpty then (st, [])
  else
    match st.keyboard_pid with
    | none => ({ st with keyboard_pid := some newPid }, [.launch])
    | some _ => (st, [])

/-- `CoreApp.set_mode(is_laptop)`: run the xinput enable/disable loop
(recorded as the single `Effect.setMode` entry), then kill the on-screen
keyboard when entering laptop mode or launch it when entering tablet
mode. -/
def set_mode (st : State) (il : Bool) (newPid : ℕ) : State × List Effect :=
  if il then
    let r := kill_keyboard st
    (r.1, .setMode il :: r.2)
  else
    let r := launch_keyboard st newPid
    (r.1, .setMode il :: r.2)

/-- `CoreApp.check_mode(is_tablet)` — the authoritative D-Bus signal
handler: `is_laptop = not is_tablet`; if it differs from `self._laptop`
(in Python a `bool` always differs from `None`), record it and call
`set_mode`. -/
def check_mode (st : State) (is_tablet : Bool) (newPid : ℕ) :
    State × List Effect :=
  let il := !is_tablet
  if some il ≠ st.laptop then
    set_mode { st with laptop := some il } il newPid
  else (st, [])

/-- The fresh sensor data a tick consumes: the inclination and acceleration
values stored by `read_incl`/`read_accel` on a fully successful read, plus
the lid-file environment `is_laptop` would consult. -/
structure SensorInput where
  incl : ℚ × ℚ × ℚ
  accel : ℚ × ℚ
  lidFile : Option String
deriving DecidableEq

/-- The orientation target computed inside `CoreApp.event`:
`orientation = 'normal'`, overwritten by `get_orientation()` when
`not self.is_laptop`. -/
def event_target (st : State) (inp : SensorInput) : Orientation :=
  let st1 := { st with incl := inp.incl, accel := inp.accel, read_fails := 0 }
  if !is_laptop st1 inp.lidFile then get_orientation st1 else .normal

/-- `CoreApp.event` — one poll tick whose sensor reads all succeed:
`read_incl()` and `read_accel()` store the fresh values (and reset the
fault counter), then the orientation target is computed and
`set_orientation` is called exactly when it differs from
`self.orientation`. -/
def event (st : State) (inp : SensorInput) : State × List Effect :=
  let st1 := { st with incl := inp.incl, accel := inp.accel, read_fails := 0 }
  let o := event_target st inp
  if o ≠ st1.orientation then
    ({ st1 with orientation := o }, [.setOrientation o])
  else (st1, [])

/-- A sequence of successful poll ticks. -/
def run_events (st : State) : List SensorInput → State
  | [] => st
  | inp :: rest => run_events (event st inp).1 rest

/-- `CoreApp.stop` — the shutdown handler: if not in laptop mode, set
`_laptop = True` and call `set_mode(True)`; if the orientation is not
`'normal'`, set it and call `set_orientation('normal')`; finally
`kill_keyboard()` and quit. -/
def stop (st : State) (lidFile : Option String) (newPid : ℕ) :
    State × List Effect :=
  let r1 :=
    if !is_laptop st lidFile then
      set_mode { st with laptop := some true } true newPid
    else (st, [])
  let r2 :=
    if r1.1.orientation ≠ .normal then
      ({ r1.1 with orientation := .normal }, [Effect.setOrientation .normal])
    else (r1.1, [])
  let r3 := kill_keyboard r2.1
  (r3.1, r1.2 ++ r2.2 ++ r3.2)

/-- `CoreApp._read_fails_max = 100` — the fault ceiling. -/
def read_fails_max : ℕ := 100

/-- The outcome of `open` + `read` on one sensor file: the file is absent
(`FileNotFoundError`), some other I/O fault occurs, or the file opens and
its content parses under Python `float()` to `some v`; `content none`
models content that `float()` rejects with a `ValueError`. -/
inductive FileOutcome
  | notFound
  | otherFault
  | content (v : Option ℚ)
deriving DecidableEq

/-- The exception class propagated by `read_sensor` to its caller. -/
inductive ErrKind
  | fileNotFound
  | valueError
  | otherFault
deriving DecidableEq

/-- The outcome of one `read_sensor` call: a returned value or a raised
exception, paired with the value of `self._read_fails` afterwards. -/
inductive ReadResult
  | ok (v : ℚ) (read_fails : ℕ)
  | raised (e : ErrKind) (read_fails : ℕ)
deriving DecidableEq

/-- `CoreApp.read_sensor`: on a successful `open`, `self._read_fails = 0`
is executed *before* `float(device.read())`, so even a `ValueError` from
parsing leaves the counter at zero; on `FileNotFoundError` the counter is
incremented and the exception re-raised only when the counter exceeds
`_read_fails_max`, else `0.0` is returned; any other exception is re-raised
with the counter untouched. -/
def read_sensor (fails : ℕ) (file : FileOutcome) : ReadResult :=
  match file with
  | .content v =>
    match v with
    | some q => .ok q 0
    | none => .raised .valueError 0
  | .notFound =>
    let f := fails + 1
    if f > read_fails_max then .raised .fileNotFound f
    else .ok 0 f
  | .otherFault => .raised .otherFault fails

/-- A sequence of `read_sensor` calls threading `self._read_fails`; a
raised exception propagates to the caller and ends the sequence. -/
def run_reads (fails : ℕ) : List FileOutcome → List ReadResult
  | [] => []
  | f :: fs =>
    match read_sensor fails f with
    | .ok v fails1 => .ok v fails1 :: run_reads fails1 fs
    | .raised e fails1 => [.raised e fails1]

/-- The inclination values stored by `CoreApp.read_incl` when all four
sensor reads succeed: `scale = read('in_incli_scale') * 10` ("multiply by
10 for better granularity"), then each stored axis is `raw * scale`. -/
def read_incl (scale_raw x_raw y_raw z_raw : ℚ) : ℚ × ℚ × ℚ :=
  let scale := scale_raw * 10
  (x_raw * scale, y_raw * scale, z_raw * scale)

/-- The acceleration values stored by `CoreApp.read_accel` when all three
sensor reads succeed: `scale = read('in_accel_scale')`, then each stored
axis is `raw * scale`. -/
def read_accel (scale_raw x_raw y_raw : ℚ) : ℚ × ℚ :=
  (x_raw * scale_raw, y_raw * scale_raw)

/-- `OrientSettings.buttonPress` restricted to its poll-interval logic:
`text_int` is the result of Python `int()` on the text field (`none` when
it raises `ValueError`, which the handler catches and ignores); only a
strictly positive parsed value replaces `parent.poll_interval`.  The
function is total: no error reaches the user. -/
def buttonPress (poll_interval : ℤ) (text_int : Option ℤ) : ℤ :=
  match text_int with
  | none => poll_interval
  | some n => if n > 0 then n else poll_interval

/-! ## Basic facts about the embedding -/

/-- `is_laptop` collapses to the record `_laptop` with default `True`: the
lid probe returns `None` (falsy), so the heuristic branch short-circuits to
`True` whatever the inclination and lid file are. -/
theorem is_laptop_eq (st : State) (lidFile : Option String) :
    is_laptop st lidFile = st.laptop.getD true := by
  cases h : st.laptop with
  | none => simp [is_laptop, h, truthy, is_lid_open]
  | some b => cases b <;> simp [is_laptop, h]

theorem event_fst_laptop (st : State) (inp : SensorInput) :
    (event st inp).1.laptop = st.laptop := by
  unfold event
  dsimp only
  split <;> rfl

theorem run_events_laptop (st : State) (inputs : List SensorInput) :
    (run_events st inputs).laptop = st.laptop := by
  induction inputs generalizing st with
  | nil => rfl
  | cons inp rest ih =>
    rw [run_events, ih, event_fst_laptop]

theorem set_mode_fst_laptop (st : State) (il : Bool) (newPid : ℕ) :
    (set_mode st il newPid).1.laptop = st.laptop := by
  unfold set_mode kill_keyboard launch_keyboard
  cases st.keyboard_pid <;> cases il <;> simp [KEYBOARD_CMD]
  split <;> rfl

/-! ## C1 — orientation classification -/

/-- C1 (counterexample): at the tied reading `x = -2, y = 2` with the
threshold `2`, the claim's premises `|x| ≥ |y|` and `x ≤ -threshold` hold,
so the claim demands `Right`; the code's strict test `abs(x) > abs(y)`
sends it to the y-branch and returns `Inverted` instead. -/
theorem get_orientation_tie_counterexample :
    |(-2 : ℚ)| ≥ |(2 : ℚ)| ∧ (-2 : ℚ) ≤ -GRAVITY_THRESHOLD ∧
      get_orientation { init_state with accel := (-2, 2) } = .inverted ∧
      get_orientation { init_state with accel := (-2, 2) } ≠ .right := by
  refine ⟨by norm_num, by norm_num [GRAVITY_THRESHOLD], by decide, by decide⟩

/-- C1 (amended): with `x, y` the acceleration reading, if `|x| > |y|`
(strictly) then `x ≤ -threshold ⇒ Right` and `x ≥ threshold ⇒ Left`;
otherwise (`|x| ≤ |y|`, including all ties) `y ≤ -threshold ⇒ Normal` and
`y ≥ threshold ⇒ Inverted`; when no threshold condition on the chosen axis
fires (in particular at `|x| = |y| = 0`), the current orientation is
returned unchanged. -/
theorem get_orientation_spec (st : State) :
    (|st.accel.1| > |st.accel.2| →
      (st.accel.1 ≤ -GRAVITY_THRESHOLD → get_orientation st = .right) ∧
      (st.accel.1 ≥ GRAVITY_THRESHOLD → get_orientation st = .left) ∧
      (-GRAVITY_THRESHOLD < st.accel.1 → st.accel.1 < GRAVITY_THRESHOLD →
        get_orientation st = st.orientation)) ∧
    (|st.accel.1| ≤ |st.accel.2| →
      (st.accel.2 ≤ -GRAVITY_THRESHOLD → get_orientation st = .normal) ∧
      (st.accel.2 ≥ GRAVITY_THRESHOLD → get_orientation st = .inverted) ∧
      (-GRAVITY_THRESHOLD < st.accel.2 → st.accel.2 < GRAVITY_THRESHOLD →
        get_orientation st = st.orientation)) := by
  have hT : GRAVITY_THRESHOLD = 2 := rfl
  constructor
  · intro hxy
    refine ⟨fun hx => ?_, fun hx => ?_, fun h1 h2 => ?_⟩
    · simp only [get_orientation, if_pos hxy, if_pos hx]
    · have hnx : ¬ st.accel.1 ≤ -GRAVITY_THRESHOLD := by
        rw [hT] at hx ⊢; linarith
      simp only [get_orientation, if_pos hxy, if_neg hnx, if_pos hx]
    · have hnx : ¬ st.accel.1 ≤ -GRAVITY_THRESHOLD := by linarith
      have hnx2 : ¬ st.accel.1 ≥ GRAVITY_THRESHOLD := by linarith
      simp only [get_orientation, if_pos hxy, if_neg hnx, if_neg hnx2]
  · intro hxy
    have hnxy : ¬ |st.accel.1| > |st.accel.2| := not_lt.mpr hxy
    refine ⟨fun hy => ?_, fun hy => ?_, fun h1 h2 => ?_⟩
    · simp only [get_orientation, if_neg hnxy, if_pos hy]
    · have hny : ¬ st.accel.2 ≤ -GRAVITY_THRESHOLD := by
        rw [hT] at hy ⊢; linarith
      simp only [get_orientation, if_neg hnxy, if_neg hny, if_pos hy]
    · have hny : ¬ st.accel.2 ≤ -GRAVITY_THRESHOLD := by linarith
      have hny2 : ¬ st.accel.2 ≥ GRAVITY_THRESHOLD := by linarith
      simp only [get_orientation, if_neg hnxy, if_neg hny, if_neg hny2]

/-- Witness for `get_orientation_spec` at the reading `(-3, 0)` with
current orientation `normal`: the dominant axis is x and `Right` is
returned. -/
theorem get_orientation_spec_witness :
    get_orientation { init_state with accel := (-3, 0) } = .right :=
  ((get_orientation_spec { init_state with accel := (-3, 0) }).1
    (by norm_num)).1 (by norm_num [GRAVITY_THRESHOLD])

/-! ## C2 / C9 — the lid probe and the laptop heuristic -/

/-- C2 (code evaluation at the failing input): with no authoritative signal
(`_laptop = None`), the lid file readable and containing `open`, and the
inclination `(100, 100)` far outside the flat/docked envelope, `is_laptop`
still returns `True` (forcing `Laptop`) because `is_lid_open` returns
`None` without ever reading the file — the claim expects the current mode
(`Tablet`) to be retained here. -/
theorem is_laptop_ignores_open_lid :
    is_laptop { init_state with incl := (100, 100, 0) } (some "open") = true ∧
      is_lid_open (some "open") = none ∧
      ¬ in_envelope (100 : ℚ) 100 := by
  refine ⟨by decide, rfl, by decide⟩

/-- C9: whenever the stored authoritative signal is still unset
(`_laptop = None`), `is_laptop` returns `True` for every inclination
reading and for every content or readability of the lid-state file, because
`is_lid_open` only defines a nested function and always returns `None`
(falsy, treated as lid closed); hence the heuristic alone always resolves
`Laptop` and can never enter or remain in `Tablet` mode. -/
theorem is_laptop_heuristic_always_true (st : State)
    (lidFile : Option String) (h : st.laptop = none) :
    is_lid_open lidFile = none ∧ is_laptop st lidFile = true ∧
      mode st lidFile = .laptop := by
  have h1 : is_laptop st lidFile = true := by
    rw [is_laptop_eq, h]; rfl
  exact ⟨rfl, h1, by rw [mode, h1]; rfl⟩

/-- Witness for `is_laptop_heuristic_always_true`: the initial state with
an unreadable lid file resolves to laptop mode. -/
theorem is_laptop_heuristic_always_true_witness :
    is_lid_open none = none ∧ is_laptop init_state none = true ∧
      mode init_state none = .laptop :=
  is_laptop_heuristic_always_true init_state none rfl

/-! ## C7 — poll-interval validation -/

/-- C7: a requested poll-interval text that is non-numeric (Python `int()`
raises, modelled by `none`) or whose parsed value is not strictly positive
leaves the stored interval unchanged — `buttonPress` is total, so no error
reaches the user — and a strictly positive parsed value replaces it. -/
theorem buttonPress_validates_poll_interval (p : ℤ) :
    buttonPress p none = p ∧
      (∀ n : ℤ, n ≤ 0 → buttonPress p (some n) = p) ∧
      (∀ n : ℤ, 0 < n → buttonPress p (some n) = n) := by
  refine ⟨rfl, fun n hn => ?_, fun n hn => ?_⟩
  · simp [buttonPress, not_lt.mpr hn]
  · simp [buttonPress, hn]

/-- Witness for `buttonPress_validates_poll_interval` at the stored
interval `1`: text `"abc"` (unparseable) keeps `1`, `-3` keeps `1`, and
`5` replaces it. -/
theorem buttonPress_validates_poll_interval_witness :
    buttonPress 1 none = 1 ∧ buttonPress 1 (some (-3)) = 1 ∧
      buttonPress 1 (some 5) = 5 :=
  ⟨(buttonPress_validates_poll_interval 1).1,
    (buttonPress_validates_poll_interval 1).2.1 (-3) (by norm_num),
    (buttonPress_validates_poll_interval 1).2.2 5 (by norm_num)⟩

/-! ## C8 — sensor scaling -/

/-- C8: on a successful tick read, each stored inclination axis equals the
raw value times the sensor scale times the fixed granularity factor `10`,
while each stored acceleration axis equals the raw value times the sensor
scale with no extra factor. -/
theorem sensor_scaling (s x y z sa xa ya : ℚ) :
    (read_incl s x y z).1 = x * s * 10 ∧
      (read_incl s x y z).2.1 = y * s * 10 ∧
      (read_incl s x y z).2.2 = z * s * 10 ∧
      (read_accel sa xa ya).1 = xa * sa ∧
      (read_accel sa xa ya).2 = ya * sa := by
  refine ⟨?_, ?_, ?_, rfl, rfl⟩ <;> simp [read_incl] <;> ring

/-! ## C10 — fault-counter reset precedes parsing -/

/-- C10: the fault counter is reset as soon as the sensor file opens,
before its content is parsed: a read whose file opens but holds
non-numeric text clears the streak to `0` and propagates the `ValueError`;
and any exception other than file-not-found propagates without touching
the counter. -/
theorem read_sensor_reset_before_parse (fails : ℕ) :
    read_sensor fails (.content none) = .raised .valueError 0 ∧
      read_sensor fails .otherFault = .raised .otherFault fails ∧
      (∀ q : ℚ, read_sensor fails (.content (some q)) = .ok q 0) := by
  exact ⟨rfl, rfl, fun q => rfl⟩

/-! ## C3 — fault tolerance of the sensor reader -/

theorem read_sensor_notFound_ok (k : ℕ) (h : k + 1 ≤ read_fails_max) :
    read_sensor k .notFound = .ok 0 (k + 1) := by
  have h2 : ¬ (k + 1 > read_fails_max) := by omega
  simp [read_sensor, h2]

theorem run_reads_replicate_ok (n : ℕ) :
    ∀ k, k + n ≤ read_fails_max →
      run_reads k (List.replicate n FileOutcome.notFound) =
        (List.range n).map (fun i => ReadResult.ok 0 (k + i + 1)) := by
  induction n with
  | zero => intro k h; rfl
  | succ m ih =>
    intro k h
    rw [List.replicate_succ]
    simp only [run_reads, read_sensor_notFound_ok k (by omega)]
    rw [ih (k + 1) (by omega), List.range_succ_eq_map, List.map_cons,
      List.map_map]
    refine congrArg₂ List.cons rfl (List.map_congr_left ?_)
    intro i _
    simp only [Function.comp_apply]
    congr 1
    omega

/-- C3: starting from a zero streak, each of the first `_read_fails_max`
(default 100) consecutive file-not-found faults returns `0.0` without
raising (and leaves the streak at the number of faults so far); the
`(ceiling+1)`-th consecutive fault raises `FileNotFoundError` to the
caller; and any successful read resets the streak to zero. -/
theorem read_sensor_fault_tolerance :
    (∀ k, k < read_fails_max → read_sensor k .notFound = .ok 0 (k + 1)) ∧
      read_sensor read_fails_max .notFound =
        .raised .fileNotFound (read_fails_max + 1) ∧
      (∀ (k : ℕ) (q : ℚ), read_sensor k (.content (some q)) = .ok q 0) ∧
      (∀ n, n ≤ read_fails_max →
        run_reads 0 (List.replicate n FileOutcome.notFound) =
          (List.range n).map (fun i => ReadResult.ok 0 (i + 1))) ∧
      run_reads 0 (List.replicate (read_fails_max + 1) FileOutcome.notFound)
        = ((List.range read_fails_max).map
            (fun i => ReadResult.ok 0 (i + 1)))
          ++ [.raised .fileNotFound (read_fails_max + 1)] := by
  refine ⟨fun k hk => read_sensor_notFound_ok k (by omega), by decide,
    fun k q => rfl, fun n hn => ?_, by decide⟩
  rw [run_reads_replicate_ok n 0 (by omega)]
  simp only [Nat.zero_add]

/-- Witness for `read_sensor_fault_tolerance`: the first fault after a
clean streak returns `0.0`, and a two-fault run returns `0.0` twice. -/
theorem read_sensor_fault_tolerance_witness :
    read_sensor 0 .notFound = .ok 0 1 ∧
      run_reads 0 (List.replicate 2 FileOutcome.notFound) =
        [.ok 0 1, .ok 0 2] := by
  constructor
  · exact read_sensor_fault_tolerance.1 0 (by norm_num [read_fails_max])
  · rw [read_sensor_fault_tolerance.2.2.2.1 2 (by norm_num [read_fails_max])]
    decide

/-! ## Helper lemmas for the transition controller -/

theorem kill_keyboard_fst_laptop (st : State) :
    (kill_keyboard st).1.laptop = st.laptop := by
  cases h : st.keyboard_pid with
  | none => simp [kill_keyboard, h]
  | some pid =>
    simp only [kill_keyboard, h]
    split <;> rfl

theorem kill_keyboard_fst_orientation (st : State) :
    (kill_keyboard st).1.orientation = st.orientation := by
  cases h : st.keyboard_pid with
  | none => simp [kill_keyboard, h]
  | some pid =>
    simp only [kill_keyboard, h]
    split <;> rfl

theorem launch_keyboard_eq (st : State) (newPid : ℕ) :
    launch_keyboard st newPid = (st, []) := rfl

theorem set_mode_fst_orientation (st : State) (il : Bool) (newPid : ℕ) :
    (set_mode st il newPid).1.orientation = st.orientation := by
  unfold set_mode
  cases il with
  | false => rfl
  | true => exact kill_keyboard_fst_orientation st

theorem check_mode_fst_laptop (st : State) (b : Bool) (newPid : ℕ) :
    ((check_mode st b newPid).1).laptop = some (!b) := by
  unfold check_mode
  dsimp only
  split
  · rw [set_mode_fst_laptop]
  · next h => exact (not_ne_iff.mp h).symm

theorem event_target_eq (st : State) (inp : SensorInput) :
    event_target st inp =
      if st.laptop.getD true then .normal
      else get_orientation
        { st with incl := inp.incl, accel := inp.accel, read_fails := 0 } := by
  unfold event_target
  dsimp only
  rw [is_laptop_eq]
  cases h : st.laptop.getD true <;> simp [h]

theorem event_snd (st : State) (inp : SensorInput) :
    (event st inp).2 =
      if event_target st inp ≠ st.orientation
      then [Effect.setOrientation (event_target st inp)] else [] := by
  unfold event
  dsimp only
  split <;> rfl

theorem event_fst (st : State) (inp : SensorInput) :
    (event st inp).1 =
      if event_target st inp ≠ st.orientation
      then { st with
              incl := inp.incl, accel := inp.accel, read_fails := 0,
              orientation := event_target st inp }
      else { st with
              incl := inp.incl, accel := inp.accel, read_fails := 0 } := by
  unfold event
  dsimp only
  split <;> rfl

theorem get_orientation_idem (st : State) :
    get_orientation { st with orientation := get_orientation st } =
      get_orientation st := by
  unfold get_orientation
  dsimp only
  split_ifs <;> rfl

theorem setMode_mem_set_mode (st : State) (il : Bool) (newPid : ℕ) :
    Effect.setMode il ∈ (set_mode st il newPid).2 := by
  cases il with
  | true => exact List.mem_cons_self _ _
  | false => exact List.mem_cons_self _ _

theorem check_mode_snd_eq (st : State) (b : Bool) (newPid : ℕ) :
    (check_mode st b newPid).2 =
      if some (!b) ≠ st.laptop
      then (set_mode { st with laptop := some (!b) } (!b) newPid).2
      else [] := by
  unfold check_mode
  dsimp only
  split <;> rfl

/-! ## C4 — authoritative-signal stickiness -/

/-- C4: after `check_mode` has processed an authoritative signal
`is_tablet = b`, the record `_laptop` equals `not b`, it is preserved by
every subsequent sequence of poll ticks, and the mode resolved inside any
subsequent tick (for every inclination, acceleration and lid state) is
exactly the mode set by that most recent signal. -/
theorem mode_authoritative_sticky (st : State) (b : Bool) (newPid : ℕ)
    (inputs : List SensorInput) :
    ((check_mode st b newPid).1).laptop = some (!b) ∧
      (run_events (check_mode st b newPid).1 inputs).laptop = some (!b) ∧
      ∀ inp : SensorInput,
        is_laptop
          { run_events (check_mode st b newPid).1 inputs with
              incl := inp.incl, accel := inp.accel, read_fails := 0 }
          inp.lidFile = !b := by
  have h1 := check_mode_fst_laptop st b newPid
  have h2 : (run_events (check_mode st b newPid).1 inputs).laptop
      = some (!b) := by
    rw [run_events_laptop, h1]
  refine ⟨h1, h2, fun inp => ?_⟩
  rw [is_laptop_eq]
  dsimp only
  rw [h2]
  rfl

/-! ## C5 — side effects fire exactly on change -/

theorem event_target_stable (st : State) (inp : SensorInput) :
    event_target (event st inp).1 inp = (event st inp).1.orientation := by
  rw [event_fst]
  by_cases hc : event_target st inp ≠ st.orientation
  · rw [if_pos hc]
    cases hl : st.laptop.getD true with
    | true =>
      have hT : event_target st inp = .normal := by
        rw [event_target_eq]; simp [hl]
      rw [event_target_eq]
      dsimp only
      simp [hl, hT]
    | false =>
      have hT : event_target st inp = get_orientation
          { st with incl := inp.incl, accel := inp.accel,
                    read_fails := 0 } := by
        rw [event_target_eq]; simp [hl]
      rw [event_target_eq]
      dsimp only
      rw [hl]
      simp only [Bool.false_eq_true, if_false]
      rw [hT]
      exact get_orientation_idem
        { st with incl := inp.incl, accel := inp.accel, read_fails := 0 }
  · rw [if_neg hc]
    have hst : event_target
        { st with incl := inp.incl, accel := inp.accel, read_fails := 0 }
        inp = event_target st inp := by
      rw [event_target_eq, event_target_eq]
    rw [hst, not_ne_iff.mp hc]

/-- C5: on the authoritative mode event, `set_mode` executes if and only
if the resolved mode differs from the recorded `_laptop`; on a tick,
`set_orientation` executes if and only if the target orientation differs
from the recorded orientation, while `set_mode` executes if and only if
the tick's resolved mode differs from the current resolved mode (both
sides never hold); hence a repeated tick with identical sensor data, and a
repeated identical authoritative signal, each produce zero external
side-effect calls. -/
theorem side_effects_idempotent_by_guard (st : State) (inp : SensorInput)
    (b : Bool) (newPid : ℕ) :
    ((∃ m, Effect.setMode m ∈ (check_mode st b newPid).2) ↔
        some (!b) ≠ st.laptop) ∧
      ((∃ o, Effect.setOrientation o ∈ (event st inp).2) ↔
        event_target st inp ≠ st.orientation) ∧
      ((∃ m, Effect.setMode m ∈ (event st inp).2) ↔
        is_laptop
          { st with incl := inp.incl, accel := inp.accel, read_fails := 0 }
          inp.lidFile ≠ is_laptop st inp.lidFile) ∧
      (event (event st inp).1 inp).2 = [] ∧
      (check_mode (check_mode st b newPid).1 b newPid).2 = [] := by
  have hR : is_laptop
      { st with incl := inp.incl, accel := inp.accel, read_fails := 0 }
      inp.lidFile = is_laptop st inp.lidFile := by
    rw [is_laptop_eq, is_laptop_eq]
  refine ⟨⟨?_, ?_⟩, ⟨?_, ?_⟩, ⟨?_, ?_⟩, ?_, ?_⟩
  · rintro ⟨m, hm⟩
    by_contra hc
    rw [check_mode_snd_eq, if_neg (not_ne_iff.mpr hc)] at hm
    exact List.not_mem_nil _ hm
  · intro hc
    exact ⟨!b, by
      rw [check_mode_snd_eq, if_pos hc]
      exact setMode_mem_set_mode _ _ _⟩
  · rintro ⟨o, ho⟩
    by_contra hc
    rw [event_snd, if_neg (not_ne_iff.mpr hc)] at ho
    exact List.not_mem_nil _ ho
  · intro hc
    exact ⟨event_target st inp, by
      rw [event_snd, if_pos hc]
      exact List.mem_singleton.mpr rfl⟩
  · rintro ⟨m, hm⟩
    rw [event_snd] at hm
    by_cases hc : event_target st inp ≠ st.orientation
    · rw [if_pos hc] at hm
      simp at hm
    · rw [if_neg hc] at hm
      exact absurd hm (List.not_mem_nil _)
  · intro hne
    exact absurd hR hne
  · rw [event_snd, if_neg (not_ne_iff.mpr (event_target_stable st inp))]
  · rw [check_mode_snd_eq,
      if_neg (not_ne_iff.mpr (check_mode_fst_laptop st b newPid).symm)]

/-! ## C6 — shutdown restores (Laptop, Normal) -/

/-- C6: from every starting state, `stop` ends with the mode resolved as
`Laptop` (the record `_laptop` is `True`, or still the `Laptop`-assumed
`None`) and the recorded orientation `Normal`; and when the system already
is in `(Laptop, Normal)` with no on-screen keyboard running, `stop`
triggers no external side effects. -/
theorem stop_orient_step_laptop (s : State) :
    ((if s.orientation ≠ Orientation.normal
        then ({ s with orientation := Orientation.normal },
          [Effect.setOrientation Orientation.normal])
        else (s, ([] : List Effect))).1).laptop = s.laptop := by
  split <;> rfl

theorem stop_orient_step_orientation (s : State) :
    ((if s.orientation ≠ Orientation.normal
        then ({ s with orientation := Orientation.normal },
          [Effect.setOrientation Orientation.normal])
        else (s, ([] : List Effect))).1).orientation = Orientation.normal := by
  split
  · rfl
  · next h => exact not_ne_iff.mp h

/-- C6: from every starting state, `stop` ends with the mode resolved as
`Laptop` (the record `_laptop` is `True`, or still the `Laptop`-assumed
`None`) and the recorded orientation `Normal`; and when the system already
is in `(Laptop, Normal)` with no on-screen keyboard running, `stop`
triggers no external side effects. -/
theorem stop_restores_laptop_normal (st : State)
    (lidFile lid2 : Option String) (newPid : ℕ) :
    mode (stop st lidFile newPid).1 lid2 = .laptop ∧
      (stop st lidFile newPid).1.orientation = .normal ∧
      (mode st lidFile = .laptop → st.orientation = .normal →
        st.keyboard_pid = none → (stop st lidFile newPid).2 = []) := by
  refine ⟨?_, ?_, ?_⟩
  · rw [mode]
    have hl : (stop st lidFile newPid).1.laptop.getD true = true := by
      unfold stop
      dsimp only
      rw [kill_keyboard_fst_laptop, stop_orient_step_laptop]
      split
      · rw [set_mode_fst_laptop]
        rfl
      · next h =>
        have hil : is_laptop st lidFile = true := by
          cases hb : is_laptop st lidFile
          · exact absurd (by rw [hb]; rfl) h
          · rfl
        rw [is_laptop_eq] at hil
        exact hil
    rw [is_laptop_eq, hl]
    rfl
  · unfold stop
    dsimp only
    rw [kill_keyboard_fst_orientation, stop_orient_step_orientation]
  · intro hm ho hk
    have hil : is_laptop st lidFile = true := by
      by_contra hc
      simp only [Bool.not_eq_true] at hc
      rw [mode, hc] at hm
      exact absurd hm (by decide)
    unfold stop
    dsimp only
    rw [hil]
    simp [ho, kill_keyboard, hk]

/-- Witness for `stop_restores_laptop_normal`: a state already in
`(Laptop, Normal)` with no keyboard running shuts down with zero side
effects and remains resolved as laptop mode. -/
theorem stop_restores_laptop_normal_witness :
    (stop { init_state with laptop := some true } none 0).2 = [] ∧
      mode (stop { init_state with laptop := some true } none 0).1 none
        = .laptop :=
  ⟨(stop_restores_laptop_normal { init_state with laptop := some true }
      none none 0).2.2 (by decide) rfl rfl,
    (stop_restores_laptop_normal { init_state with laptop := some true }
      none none 0).1⟩

end Qtorient
